import Mathlib

/-!
Verification of the Smart Safety Helmet central-system ingest pipeline.

This file gives a shallow embedding of the message-receiving, dispatching
and batched-persistence components of the central system
(`Central-system-code/reciever.py` and `Central-system-code/db_manager.py`)
and proves, or refutes on concrete inputs, the stated properties of that
pipeline.

Conventions of the embedding:
* Python dicts used as handler registries become association lists in
  insertion order (registration appends).
* Handlers are abstract tokens (`Nat`); whether a handler raises an
  exception when invoked is supplied to dispatch as a predicate, and
  dispatch returns the exact sequence of handler invocations it performed
  together with a flag saying whether an exception was caught.
* The mutable object state of `MQTTReceiver` and `DatabaseManager`,
  together with the local variables of their worker loops, is an explicit
  state record; concurrent interleavings are event sequences acting on
  that state.
* Machine integers and floats of the source are modelled by `Nat` and
  `Rat`; timestamps are abstract `Nat` instants supplied by events.
* Fallible storage is modelled by explicit success oracles on each flush.
-/

namespace Receiver

/-- Handlers are abstract tokens; only their identity matters to routing. -/
abbrev Handler := Nat

/-- One category's registry (the Python dict `message_handlers['sensors']`
or `message_handlers['status']`): an association list from handler key to
the bucket of handlers registered under that key, in insertion order. -/
abbrev HandlerTable := List (String × List Handler)

/-- The `message_handlers` registry of `MQTTReceiver`: one table per
category, the dict being created with exactly the keys
`'sensors'` and `'status'`. -/
structure Registry where
  sensors : HandlerTable
  status : HandlerTable
deriving DecidableEq

/-- Dict lookup on a handler table (first binding wins, as in a dict where
keys are unique by construction of `addKey`). -/
def lookupKey (t : HandlerTable) (k : String) : Option (List Handler) :=
  match t with
  | [] => none
  | (k', hs) :: rest => if k' = k then some hs else lookupKey rest k

/-- Registering appends the handler to the bucket of `k`, creating the
bucket if absent (mirrors `register_handler` lines 232-235). -/
def addKey (t : HandlerTable) (k : String) (h : Handler) : HandlerTable :=
  match t with
  | [] => [(k, [h])]
  | (k', hs) :: rest =>
    if k' = k then (k', hs ++ [h]) :: rest else (k', hs) :: addKey rest k h

/-- Model of `MQTTReceiver.register_handler`: rejects unknown categories
(returning `False` and leaving the registry unchanged), otherwise appends
the handler under the given key. -/
def register_handler (r : Registry) (message_type handler_key : String)
    (h : Handler) : Bool × Registry :=
  if message_type = "sensors" then
    (true, { r with sensors := addKey r.sensors handler_key h })
  else if message_type = "status" then
    (true, { r with status := addKey r.status handler_key h })
  else
    (false, r)

/-- The bucket registered under key `k`, empty if the key is absent
(models the `if key in dict: for handler in dict[key]` pattern). -/
def bucket (t : HandlerTable) (k : String) : List Handler :=
  (lookupKey t k).getD []

/-- The sequence of handlers `_process_single_message` walks for a parsed
topic, in source order: the exact bucket `device_id/sub_type`, then the
catch-all bucket `*`, then the device wildcard bucket `device_id/*`.
No other bucket is consulted by the source. -/
def matchingHandlers (r : Registry) (message_type device_id sub_type : String) :
    List Handler :=
  let t := if message_type = "sensors" then r.sensors else r.status
  bucket t (device_id ++ "/" ++ sub_type) ++ bucket t "*"
    ++ bucket t (device_id ++ "/*")

/-- Invoke handlers in order. A raising handler transfers control to the
`except` clause of `_process_single_message`, so it terminates the walk:
the result is the list of handlers actually invoked (the raising one
included) and whether an exception was caught. -/
def runHandlers (raises : Handler → Bool) : List Handler → List Handler × Bool
  | [] => ([], false)
  | h :: rest =>
    if raises h then ([h], true)
    else
      let step := runHandlers raises rest
      (h :: step.1, step.2)

/-- Routing of a message whose topic already parsed into its four
segments (the body of `_process_single_message` after the topic split,
guarded by `message_type in self.message_handlers`). -/
def dispatch_parts (raises : Handler → Bool) (r : Registry)
    (message_type device_id sub_type : String) : List Handler × Bool :=
  if message_type = "sensors" ∨ message_type = "status" then
    runHandlers raises (matchingHandlers r message_type device_id sub_type)
  else
    ([], false)

/-- Splitting accumulator: realises Python `str.split` with a one-character
separator on the string's character list. -/
def splitAux (sep : Char) : List Char → List Char → List String
  | [], acc => [String.mk acc.reverse]
  | c :: cs, acc =>
    if c = sep then String.mk acc.reverse :: splitAux sep cs []
    else splitAux sep cs (c :: acc)

/-- Python `topic.split('/')` as used by `_process_single_message`. -/
def splitTopic (s : String) : List String :=
  splitAux '/' s.data []

/-- Model of `MQTTReceiver._process_single_message`: splits the topic on
`/`, requires at least four segments with head `devices`, and routes to
the matching buckets. Returns the invocation sequence and whether a
handler exception was caught by the surrounding try/except; the registry
is never modified by dispatch. -/
def process_single_message (raises : Handler → Bool) (r : Registry)
    (topic : String) : List Handler × Bool :=
  let parts := splitTopic topic
  if 4 ≤ parts.length ∧ parts.headD "" = "devices" then
    dispatch_parts raises r (parts.getD 2 "") (parts.getD 1 "") (parts.getD 3 "")
  else
    ([], false)

/-- The registry of claim C1: three handlers registered in category
`sensors` under keys `d1/temp`, `*/temp` and `*`, in that order. -/
def c1Registry : Registry :=
  (register_handler
    (register_handler
      (register_handler ⟨[], []⟩ "sensors" "d1/temp" 1).2
      "sensors" "*/temp" 2).2
    "sensors" "*" 3).2

/-- A registry with two handlers registered under the same exact key
`d1/temp` of category `sensors`, in order 1 then 2 (used to examine what
happens when the first of two sibling handlers raises). -/
def c3Registry : Registry :=
  (register_handler
    (register_handler ⟨[], []⟩ "sensors" "d1/temp" 1).2
    "sensors" "d1/temp" 2).2

/-- Object state of `MQTTReceiver` relevant to ingestion: the bounded
message buffer (a deque with `maxlen = buffer_size`, kept here together
with the manual eviction of `_on_message`), the bounded processing queue
(`queue.Queue(maxsize=buffer_size * 2)`) and the statistics dict.
Messages are abstract values of type `α`; timestamps are `Nat` instants. -/
structure RecvState (α : Type) where
  buffer_size : Nat
  message_buffer : List α
  processing_queue : List α
  messages_received : Nat
  messages_processed : Nat
  buffer_overflows : Nat
  last_message_time : Option Nat

/-- Model of `MQTTReceiver._on_message` for a decodable payload: if the
buffer is at capacity, pop the oldest entry and count an overflow, then
append the new message; try a non-blocking put on the processing queue
(dropping the message there, with only a log line, when that queue is
full — `queue.Queue` treats `maxsize <= 0` as unbounded); finally count
the message as received and stamp the time. Eviction happens only when
the buffer is non-empty (its length equals a positive capacity), so
`List.tail` coincides with `deque.popleft`. -/
def on_message {α : Type} (t : Nat) (m : α) (s : RecvState α) : RecvState α :=
  let evict := s.buffer_size ≤ s.message_buffer.length
  let buf := (if evict then s.message_buffer.tail else s.message_buffer) ++ [m]
  let ovf := if evict then s.buffer_overflows + 1 else s.buffer_overflows
  let pq :=
    if 0 < s.buffer_size * 2 ∧ s.buffer_size * 2 ≤ s.processing_queue.length then
      s.processing_queue
    else
      s.processing_queue ++ [m]
  { s with message_buffer := buf, processing_queue := pq,
           buffer_overflows := ovf,
           messages_received := s.messages_received + 1,
           last_message_time := some t }

/-- Fresh receiver state with the given buffer capacity (constructor of
`MQTTReceiver`). -/
def initRecv (α : Type) (C : Nat) : RecvState α :=
  { buffer_size := C, message_buffer := [], processing_queue := [],
    messages_received := 0, messages_processed := 0, buffer_overflows := 0,
    last_message_time := none }

/-- A sequence of `_on_message` calls, each with its arrival time. -/
def recordAll {α : Type} : List (Nat × α) → RecvState α → RecvState α
  | [], s => s
  | tm :: rest, s => recordAll rest (on_message tm.1 tm.2 s)

end Receiver

namespace DBM

/-- One row of the `buffer_audit` table (a `BatchAuditRecord`). -/
structure AuditRow where
  operation_type : String
  items_count : Nat
  duration_ms : Nat
  success : Bool
deriving DecidableEq

/-- Constructor arguments of `DatabaseManager`. -/
structure Config where
  batch_size : Nat
  max_queue_size : Nat

/-- State of a `DatabaseManager` instance together with the local
variables of its `_db_worker` loop (`batch_operations`,
`last_batch_time`) and two history variables used to state properties:
`accepted` records, in order, the operations for which `queue_operation`
returned `True`, and `processed` records every batch handed to
`_process_batch` together with the success of its transaction. Queued
operations are abstract values of type `α`. -/
structure St (α : Type) where
  operation_queue : List α
  is_running : Bool
  batch_ops : List α
  last_batch_time : Nat
  buffer_audit : List AuditRow
  operations_queued : Nat
  operations_completed : Nat
  batch_inserts : Nat
  errors : Nat
  queue_overflows : Nat
  accepted : List α
  processed : List (List α × Bool)
deriving DecidableEq

/-- Fresh manager state (constructor of `DatabaseManager`; the worker is
not yet running and `last_batch_time` is the worker-start instant,
taken here as 0). -/
def init (α : Type) : St α :=
  { operation_queue := [], is_running := false, batch_ops := [],
    last_batch_time := 0, buffer_audit := [],
    operations_queued := 0, operations_completed := 0, batch_inserts := 0,
    errors := 0, queue_overflows := 0, accepted := [], processed := [] }

/-- Model of `DatabaseManager.start`: flips the running flag (spawning of
the worker thread is represented by `iter` events). -/
def start {α : Type} (s : St α) : St α :=
  if s.is_running then s else { s with is_running := true }

/-- Running manager state with empty queue. -/
def startState (α : Type) : St α :=
  start (init α)

/-- Model of `DatabaseManager.queue_operation`: rejected outright when the
manager is not running; a non-blocking put on the bounded queue that, on
`queue.Full` (raised when a positive `maxsize` has been reached), counts a
queue overflow and reports failure; otherwise the operation is appended
and acceptance recorded. -/
def queue_operation {α : Type} (cfg : Config) (op : α) (s : St α) :
    Bool × St α :=
  if s.is_running = false then
    (false, s)
  else if 0 < cfg.max_queue_size ∧
      cfg.max_queue_size ≤ s.operation_queue.length then
    (false, { s with queue_overflows := s.queue_overflows + 1 })
  else
    (true, { s with operation_queue := s.operation_queue ++ [op],
                    accepted := s.accepted ++ [op] })

/-- Model of `DatabaseManager._process_batch` on a batch `ops`. `tryOk`
says whether the batch transaction (the whole `try` block: the grouped
bulk statements, both commits and the success audit row) goes through;
on failure, `failAuditOk` says whether the separately attempted failure
audit insert — itself guarded by a bare `except: pass` — succeeds.
`dur` is the measured duration. Either way the batch is consumed, which
the history variable `processed` records with the outcome. -/
def process_batch {α : Type} (ops : List α) (dur : Nat)
    (tryOk failAuditOk : Bool) (s : St α) : St α :=
  if tryOk then
    { s with
      operations_completed := s.operations_completed + ops.length,
      batch_inserts := s.batch_inserts + 1,
      buffer_audit := s.buffer_audit ++ [⟨"batch_process", ops.length, dur, true⟩],
      processed := s.processed ++ [(ops, true)] }
  else
    let s1 :=
      if failAuditOk then
        { s with buffer_audit :=
            s.buffer_audit ++ [⟨"batch_process", ops.length, dur, false⟩] }
      else
        s
    { s1 with errors := s1.errors + 1, processed := s1.processed ++ [(ops, false)] }

/-- One iteration of the `while self.is_running` body of
`DatabaseManager._db_worker`, entered because the loop condition was
observed true before the body began. The `get(timeout=1.0)` returns the
head of the queue when one is available and raises `queue.Empty`
otherwise; `now` is `time.time()` at the flush decision, and `dur`,
`tryOk`, `failAuditOk` parametrise the flush as in `process_batch`. -/
def worker_iter {α : Type} (cfg : Config) (now dur : Nat)
    (tryOk failAuditOk : Bool) (s : St α) : St α :=
  let got : Bool := !s.operation_queue.isEmpty
  let s1 :=
    match s.operation_queue with
    | [] => s
    | op :: rest =>
      { s with operation_queue := rest,
               batch_ops := s.batch_ops ++ [op],
               operations_queued := s.operations_queued + 1 }
  let should : Bool :=
    decide (cfg.batch_size ≤ s1.batch_ops.length) ||
    (!got && !s1.batch_ops.isEmpty) ||
    (decide (s1.last_batch_time + 5 ≤ now) && !s1.batch_ops.isEmpty)
  if should && !s1.batch_ops.isEmpty then
    let s2 := process_batch s1.batch_ops dur tryOk failAuditOk s1
    { s2 with batch_ops := [], last_batch_time := now }
  else
    s1

/-- The drain after the worker loop exits (`if batch_operations:
self._process_batch(batch_operations)`): the pending in-memory batch is
flushed; the local variable then goes out of scope with the thread, which
clearing it models. Operations still inside `operation_queue` are not
touched by this drain. -/
def worker_final {α : Type} (dur : Nat) (tryOk failAuditOk : Bool)
    (s : St α) : St α :=
  if s.batch_ops.isEmpty then
    s
  else
    { process_batch s.batch_ops dur tryOk failAuditOk s with batch_ops := [] }

/-- Model of `DatabaseManager.stop`: clears the running flag (the bounded
join is represented by scheduling `iter`/`final` events after this one). -/
def stop {α : Type} (s : St α) : St α :=
  if s.is_running then { s with is_running := false } else s

/-- Events of one pipeline execution: producer enqueues, worker-loop
iterations, the stop call, and the worker's final drain. -/
inductive Ev (α : Type) where
  | enq (op : α)
  | iter (now dur : Nat) (tryOk failAuditOk : Bool)
  | stopEv
  | final (dur : Nat) (tryOk failAuditOk : Bool)

/-- Effect of one event on the manager state. -/
def step {α : Type} (cfg : Config) (s : St α) : Ev α → St α
  | .enq op => (queue_operation cfg op s).2
  | .iter now dur tryOk failAuditOk => worker_iter cfg now dur tryOk failAuditOk s
  | .stopEv => stop s
  | .final dur tryOk failAuditOk => worker_final dur tryOk failAuditOk s

/-- An execution: fold of events over the state. -/
def run {α : Type} (cfg : Config) (evs : List (Ev α)) (s : St α) : St α :=
  evs.foldl (step cfg) s

/-- All operations ever handed to `_process_batch`, in order. -/
def processedFlat {α : Type} (s : St α) : List α :=
  (s.processed.map Prod.fst).flatten

/-- Conservation invariant tying the history variables to the live state:
every accepted operation sits in exactly one place — already handed to
`_process_batch`, pending in the worker's in-memory batch, or still in
the queue — and the error counter counts exactly the failed batches. -/
def ConsInv {α : Type} (s : St α) : Prop :=
  processedFlat s ++ s.batch_ops ++ s.operation_queue = s.accepted ∧
  s.errors = (s.processed.filter (fun p => p.2 = false)).length

end DBM

namespace Integration

/-- Structured view of a parsed JSON sensor payload, with one optional
field per key that `DatabaseIntegration` reads through `dict.get`.
Numeric values are rationals. -/
structure SensorData where
  sensor : Option String
  status : Option String
  value : Option Rat
  unit : Option String
  heart_rate : Option Rat
  spo2 : Option Rat
deriving DecidableEq

/-- The persistence operations `DatabaseIntegration` submits through the
public API of `DatabaseManager` (`update_device_status`,
`insert_sensor_data`, `record_emergency_event`, `create_system_alert`),
with the payload each of those methods builds. -/
inductive IntOp where
  | update_device (device_id status : String)
      (firmware_version : Option String) (battery_level : Option Rat)
  | insert_sensor_data (device_id sensor_type : String)
      (value_data : SensorData) (raw_message : String)
  | emergency_event (device_id emergency_type : String)
      (sensor_context : SensorData)
  | system_alert (device_id alert_type message alert_level : String)
      (sensor_data : SensorData)
deriving DecidableEq

/-- Model of `DatabaseIntegration._check_critical_conditions`: the
`if`/`elif` chain over the sensor type, with `dict.get` defaults 0 for
`value` and `heart_rate` and 100 for `spo2`, producing the
`create_system_alert` submissions in source order. -/
def check_critical_conditions (device_id sensor_type : String)
    (data : SensorData) : List IntOp :=
  if sensor_type = "gas" ∧ data.status = some "ALARM" then
    [.system_alert device_id "gas_alarm" "High gas concentration detected"
      "critical" data]
  else if sensor_type = "temperature" ∧ (38 : Rat) < data.value.getD 0 then
    [.system_alert device_id "high_temperature" "Elevated temperature detected"
      "warning" data]
  else if sensor_type = "pulse" then
    let hr := data.heart_rate.getD 0
    let sp := data.spo2.getD 100
    (if hr < 50 ∨ 150 < hr then
      [.system_alert device_id "abnormal_heart_rate"
        ("Abnormal heart rate: " ++ toString hr ++ " BPM") "warning" data]
    else []) ++
    (if sp < 90 then
      [.system_alert device_id "low_oxygen"
        ("Low blood oxygen: " ++ toString sp ++ "%") "critical" data]
    else [])
  else
    []

/-- Model of `DatabaseIntegration._handle_sensor_data`: nothing happens on
a `None` payload; otherwise a device-presence update and the sensor-data
insert are submitted, followed by whatever `_check_critical_conditions`
derives. The result is the ordered list of submissions to the manager. -/
def handle_sensor_data (device_id sensor_type : String)
    (data : Option SensorData) (raw_message : String) : List IntOp :=
  match data with
  | none => []
  | some d =>
    .update_device device_id "online" none none ::
    .insert_sensor_data device_id sensor_type d raw_message ::
    check_critical_conditions device_id sensor_type d

/-- Whether a submitted operation is a `system_alert` at level
`critical`. -/
def is_critical_alert : IntOp → Bool
  | .system_alert _ _ _ lvl _ => lvl == "critical"
  | _ => false

/-- A gas payload whose status literal is `ALARM`. -/
def gasAlarmData : SensorData :=
  { sensor := some "gas", status := some "ALARM", value := some 720,
    unit := some "ppm", heart_rate := none, spo2 := none }

/-- A pulse payload with oxygen saturation below 90. -/
def lowSpo2Data : SensorData :=
  { sensor := some "pulse_oximeter", status := none, value := none,
    unit := none, heart_rate := some 72, spo2 := some 85 }

end Integration

namespace PyModel

/-- Exceptions relevant to the modelled stdlib calls. -/
inductive PyErr where
  | typeError
deriving DecidableEq

/-- CPython stdlib semantics: `queue.Queue.join` is declared as
`def join(self):` with no `timeout` parameter, so a call that passes a
`timeout` keyword argument — with any value, `None` included — raises
`TypeError` before the queue is examined at all. -/
def queue_join_timeout {α : Type} (q : List α) (timeout : Option Rat) :
    Except PyErr Bool :=
  Except.error PyErr.typeError

end PyModel

/-- Model of `DatabaseManager.wait_for_queue_empty`: the
`self.operation_queue.join(timeout=timeout)` call inside `try`, whose
exception is caught, logged, and converted to `False`. -/
def DBM.wait_for_queue_empty {α : Type} (s : DBM.St α)
    (timeout : Option Rat) : Bool :=
  match PyModel.queue_join_timeout s.operation_queue timeout with
  | Except.ok b => b
  | Except.error _ => false

/-- Model of `MQTTReceiver.wait_for_processing`: the
`self.processing_queue.join(timeout=timeout)` call inside `try`, whose
exception is caught, logged, and converted to `False`. -/
def Receiver.wait_for_processing {α : Type} (s : Receiver.RecvState α)
    (timeout : Option Rat) : Bool :=
  match PyModel.queue_join_timeout s.processing_queue timeout with
  | Except.ok b => b
  | Except.error _ => false

namespace Devices

/-- A row of the `devices` table, per the schema of `_init_database`:
`device_id TEXT PRIMARY KEY`, `first_seen`/`last_seen` defaulting to
`CURRENT_TIMESTAMP`, `status TEXT DEFAULT 'offline'`, nullable
`firmware_version` and `last_battery_level`, `total_messages INTEGER
DEFAULT 0`. -/
structure DeviceRow where
  device_id : String
  first_seen : Nat
  last_seen : Nat
  status : String
  firmware_version : Option String
  last_battery_level : Option Rat
  total_messages : Nat
deriving DecidableEq

/-- The `data` dict of an `update_device` operation as built by
`update_device_status` or supplied by a caller: optional fields reflect
`dict.get` defaults at use. -/
structure UpdateDeviceData where
  device_id : String
  timestamp : Option Nat
  status : Option String
  firmware_version : Option String
  battery_level : Option Rat

/-- Primary-key lookup in the `devices` table. -/
def lookupDevice (t : List DeviceRow) (id : String) : Option DeviceRow :=
  t.find? (fun r => r.device_id == id)

/-- Model of one iteration of `_batch_update_devices`: the
`INSERT OR REPLACE INTO devices` statement. On a primary-key conflict
SQLite deletes the existing row and inserts the new one; the column list
omits `first_seen`, so that column takes its declared default
`CURRENT_TIMESTAMP` (`now`); `total_messages` is
`COALESCE((SELECT total_messages ...), 0) + 1` evaluated against the
pre-statement table; the remaining columns take the bound values,
`NULL`s included. -/
def batch_update_device (now : Nat) (t : List DeviceRow)
    (d : UpdateDeviceData) : List DeviceRow :=
  let prev := ((lookupDevice t d.device_id).map DeviceRow.total_messages).getD 0
  let row : DeviceRow :=
    { device_id := d.device_id,
      first_seen := now,
      last_seen := d.timestamp.getD now,
      status := d.status.getD "online",
      firmware_version := d.firmware_version,
      last_battery_level := d.battery_level,
      total_messages := prev + 1 }
  t.filter (fun r => r.device_id != d.device_id) ++ [row]

/-- Model of `_batch_update_devices`: the statement applied per operation
in batch order. -/
def batch_update_devices (now : Nat) (t : List DeviceRow)
    (ops : List UpdateDeviceData) : List DeviceRow :=
  ops.foldl (batch_update_device now) t

/-- A one-row table holding device `d1` with stored history. -/
def exampleTable : List DeviceRow :=
  [{ device_id := "d1", first_seen := 5, last_seen := 5, status := "offline",
     firmware_version := some "fw-1.0", last_battery_level := some 80,
     total_messages := 7 }]

/-- An update operation for `d1` supplying no firmware or battery data. -/
def exampleUpdate : UpdateDeviceData :=
  { device_id := "d1", timestamp := some 9, status := none,
    firmware_version := none, battery_level := none }

end Devices

/-- Claim C1: dispatching `devices/d1/sensors/temp` against handlers
registered under `d1/temp` (handler 1), `*/temp` (handler 2) and `*`
(handler 3) invokes only handlers 1 and 3, once each and in that order.
The subtype-wildcard bucket `*/temp` is never consulted by
`_process_single_message`, although `register_handler` documents
`*/temperature` as a supported pattern, so handler 2 is never invoked
and the claimed three-way fan-out fails. -/
theorem c1_subtype_wildcard_never_dispatched :
    Receiver.process_single_message (fun _ => false) Receiver.c1Registry
      "devices/d1/sensors/temp" = ([1, 3], false) := by
  decide

/-- Helper: walking a handler list stops at the first raising handler —
every handler before it is invoked, it is invoked, nothing after it is
invoked, and the exception flag is set. -/
theorem Receiver.runHandlers_stops (raises : Receiver.Handler → Bool)
    (l1 l2 : List Receiver.Handler) (hr : Receiver.Handler)
    (hok : ∀ h ∈ l1, raises h = false) (hraise : raises hr = true) :
    Receiver.runHandlers raises (l1 ++ hr :: l2) = (l1 ++ [hr], true) := by
  induction l1 with
  | nil => simp [Receiver.runHandlers, hraise]
  | cons a t ih =>
    have ha : raises a = false := hok a (by simp)
    have ih' := ih (fun h hm => hok h (by simp [hm]))
    simp [Receiver.runHandlers, ha, ih']

/-- Claim C3 counterexample: handlers 1 and 2 are both registered under
the exact key `d1/temp` and both match the dispatched message, handler 1
raises. The whole routing block of `_process_single_message` sits in one
try/except, so the exception aborts routing for this message: only
handler 1 is invoked, and the subsequent matching handler 2 is never
invoked — contradicting the claim that every subsequent matching handler
is still invoked. -/
theorem c3_counterexample :
    Receiver.process_single_message (fun h => h == 1) Receiver.c3Registry
      "devices/d1/sensors/temp" = ([1], true) := by
  decide

/-- Claim C3 (amended): if an invoked handler raises, the exception is
caught at the message level (dispatch returns normally with the caught
flag set) and the registry is untouched — dispatch is a pure reader of
it — but routing of that message stops: the handlers before the raising
one and the raising one itself are invoked exactly once, in order, and
no later matching handler is invoked. -/
theorem c3_handler_exception_stops_dispatch
    (raises : Receiver.Handler → Bool) (r : Receiver.Registry)
    (mt dev sub : String) (l1 l2 : List Receiver.Handler)
    (hr : Receiver.Handler)
    (hmt : mt = "sensors" ∨ mt = "status")
    (hsplit : Receiver.matchingHandlers r mt dev sub = l1 ++ hr :: l2)
    (hok : ∀ h ∈ l1, raises h = false) (hraise : raises hr = true) :
    Receiver.dispatch_parts raises r mt dev sub = (l1 ++ [hr], true) := by
  unfold Receiver.dispatch_parts
  rw [if_pos hmt, hsplit]
  exact Receiver.runHandlers_stops raises l1 l2 hr hok hraise

/-- Witness for claim C3's amended theorem at a concrete registry: the
two sibling handlers of `c3Registry`, the first of which raises. -/
theorem c3_witness :
    Receiver.dispatch_parts (fun h => h == 1) Receiver.c3Registry
      "sensors" "d1" "temp" = ([1], true) :=
  c3_handler_exception_stops_dispatch (fun h => h == 1) Receiver.c3Registry
    "sensors" "d1" "temp" [] [2] 1 (Or.inl rfl) (by decide)
    (by intro h hm; simp at hm) (by decide)

/-- Helper: effect of `_on_message` when the buffer is at (or beyond)
capacity — oldest entry evicted, overflow counted, message appended. -/
theorem Receiver.on_message_evict {α : Type} (t : Nat) (m : α)
    (s : Receiver.RecvState α) (h : s.buffer_size ≤ s.message_buffer.length) :
    (Receiver.on_message t m s).message_buffer = s.message_buffer.tail ++ [m] ∧
    (Receiver.on_message t m s).buffer_overflows = s.buffer_overflows + 1 ∧
    (Receiver.on_message t m s).messages_received = s.messages_received + 1 ∧
    (Receiver.on_message t m s).buffer_size = s.buffer_size := by
  simp [Receiver.on_message, h]

/-- Helper: effect of `_on_message` below capacity — plain append, no
overflow. -/
theorem Receiver.on_message_keep {α : Type} (t : Nat) (m : α)
    (s : Receiver.RecvState α)
    (h : ¬ s.buffer_size ≤ s.message_buffer.length) :
    (Receiver.on_message t m s).message_buffer = s.message_buffer ++ [m] ∧
    (Receiver.on_message t m s).buffer_overflows = s.buffer_overflows ∧
    (Receiver.on_message t m s).messages_received = s.messages_received + 1 ∧
    (Receiver.on_message t m s).buffer_size = s.buffer_size := by
  simp [Receiver.on_message, h]

/-- Helper: closed form for a sequence of `_on_message` calls starting
from any state within capacity: the buffer is the suffix of the overall
arrival sequence that fits, the overflow counter has grown by the number
of arrivals that did not fit, and every arrival is counted as received. -/
theorem Receiver.recordAll_formula {α : Type} (C : Nat) (hC : 1 ≤ C) :
    ∀ (ms : List (Nat × α)) (s : Receiver.RecvState α),
      s.buffer_size = C → s.message_buffer.length ≤ C →
      (Receiver.recordAll ms s).message_buffer
          = (s.message_buffer ++ ms.map Prod.snd).drop
              (s.message_buffer.length + ms.length - C) ∧
      (Receiver.recordAll ms s).buffer_overflows
          = s.buffer_overflows + (s.message_buffer.length + ms.length - C) ∧
      (Receiver.recordAll ms s).messages_received
          = s.messages_received + ms.length ∧
      (Receiver.recordAll ms s).buffer_size = C := by
  intro ms
  induction ms with
  | nil =>
    intro s hsz hlen
    have h0 : s.message_buffer.length - C = 0 := by omega
    simp [Receiver.recordAll, h0, hsz]
  | cons tm rest ih =>
    intro s hsz hlen
    simp only [Receiver.recordAll]
    by_cases hev : s.buffer_size ≤ s.message_buffer.length
    · have hlenC : s.message_buffer.length = C := by omega
      obtain ⟨hb, ho, hr, hsz'⟩ := Receiver.on_message_evict tm.1 tm.2 s hev
      have hne : s.message_buffer ≠ [] := by
        intro hnil
        rw [hnil] at hlenC
        simp at hlenC
        omega
      have hlen' : (Receiver.on_message tm.1 tm.2 s).message_buffer.length ≤ C := by
        rw [hb]
        simp [List.length_tail]
        omega
      obtain ⟨ihb, iho, ihr, ihs⟩ :=
        ih (Receiver.on_message tm.1 tm.2 s) (by rw [hsz', hsz]) hlen'
      refine ⟨?_, ?_, ?_, ihs⟩
      · rw [ihb, hb]
        have hidx1 : (s.message_buffer.tail ++ [tm.2]).length + rest.length - C
            = rest.length := by
          simp [List.length_tail]
          omega
        have hidx2 : s.message_buffer.length + (tm :: rest).length - C
            = rest.length + 1 := by
          simp
          omega
        rw [hidx1, hidx2]
        obtain ⟨b, bs, hbs⟩ : ∃ b bs, s.message_buffer = b :: bs := by
          cases hmb : s.message_buffer with
          | nil => exact absurd hmb hne
          | cons b bs => exact ⟨b, bs, rfl⟩
        rw [hbs]
        simp [List.append_assoc]
      · rw [iho, ho, hb]
        simp [List.length_tail]
        omega
      · rw [ihr, hr]
        simp
        omega
    · obtain ⟨hb, ho, hr, hsz'⟩ := Receiver.on_message_keep tm.1 tm.2 s hev
      have hlen' : (Receiver.on_message tm.1 tm.2 s).message_buffer.length ≤ C := by
        rw [hb]
        simp
        omega
      obtain ⟨ihb, iho, ihr, ihs⟩ :=
        ih (Receiver.on_message tm.1 tm.2 s) (by rw [hsz', hsz]) hlen'
      refine ⟨?_, ?_, ?_, ihs⟩
      · rw [ihb, hb]
        have hidx : (s.message_buffer ++ [tm.2]).length + rest.length - C
            = s.message_buffer.length + (tm :: rest).length - C := by
          simp
          omega
        rw [hidx]
        simp [List.append_assoc]
      · rw [iho, ho, hb]
        simp
        omega
      · rw [ihr, hr]
        simp
        omega

/-- Claim C4: recording `N` messages into an ingest buffer of capacity
`C ≥ 1` keeps the buffer size at or below `C` after every prefix of the
sequence, and when `N > C` the final buffer is exactly the last `C`
messages in arrival order with the overflow counter equal to `N - C`. -/
theorem c4_ingest_buffer (α : Type) (C : Nat) (hC : 1 ≤ C)
    (ms : List (Nat × α)) :
    (∀ k, ((Receiver.recordAll (ms.take k)
        (Receiver.initRecv α C)).message_buffer).length ≤ C) ∧
    (C < ms.length →
      (Receiver.recordAll ms (Receiver.initRecv α C)).message_buffer
          = (ms.map Prod.snd).drop (ms.length - C) ∧
      (Receiver.recordAll ms (Receiver.initRecv α C)).buffer_overflows
          = ms.length - C) := by
  constructor
  · intro k
    obtain ⟨hb, -, -, -⟩ :=
      Receiver.recordAll_formula C hC (ms.take k) (Receiver.initRecv α C)
        rfl (by simp [Receiver.initRecv])
    rw [hb]
    simp [Receiver.initRecv, List.length_drop]
    omega
  · intro hN
    obtain ⟨hb, ho, -, -⟩ :=
      Receiver.recordAll_formula C hC ms (Receiver.initRecv α C)
        rfl (by simp [Receiver.initRecv])
    constructor
    · rw [hb]
      simp [Receiver.initRecv]
    · rw [ho]
      simp [Receiver.initRecv]

/-- Witness for claim C4 with capacity 2 and three arrivals: the buffer
ends as the last two messages and one overflow is counted. -/
theorem c4_witness :
    (∀ k, ((Receiver.recordAll ([(0, 10), (1, 20), (2, 30)].take k)
        (Receiver.initRecv Nat 2)).message_buffer).length ≤ 2) ∧
    (2 < [(0, 10), (1, 20), (2, 30)].length →
      (Receiver.recordAll [(0, 10), (1, 20), (2, 30)]
          (Receiver.initRecv Nat 2)).message_buffer
          = ([(0, 10), (1, 20), (2, 30)].map Prod.snd).drop
              ([(0, 10), (1, 20), (2, 30)].length - 2) ∧
      (Receiver.recordAll [(0, 10), (1, 20), (2, 30)]
          (Receiver.initRecv Nat 2)).buffer_overflows
          = [(0, 10), (1, 20), (2, 30)].length - 2) :=
  c4_ingest_buffer Nat 2 (by decide) [(0, 10), (1, 20), (2, 30)]

/-- Helper: effect of one `_process_batch` call on the components that the
conservation invariant watches — the batch lands in the processing history
exactly once, the queue, pending batch and acceptance history are
untouched, and the error counter moves together with the count of failed
batches. -/
theorem DBM.process_batch_inv {α : Type} (ops : List α) (dur : Nat)
    (tryOk failAuditOk : Bool) (s : DBM.St α) :
    DBM.processedFlat (DBM.process_batch ops dur tryOk failAuditOk s)
        = DBM.processedFlat s ++ ops ∧
    (DBM.process_batch ops dur tryOk failAuditOk s).errors
        = s.errors + (if tryOk then 0 else 1) ∧
    (DBM.process_batch ops dur tryOk failAuditOk s).operation_queue
        = s.operation_queue ∧
    (DBM.process_batch ops dur tryOk failAuditOk s).accepted = s.accepted ∧
    (DBM.process_batch ops dur tryOk failAuditOk s).batch_ops = s.batch_ops ∧
    ((DBM.process_batch ops dur tryOk failAuditOk s).processed.filter
        (fun p => p.2 = false)).length
        = (s.processed.filter (fun p => p.2 = false)).length
            + (if tryOk then 0 else 1) := by
  cases tryOk <;> cases failAuditOk <;>
    simp [DBM.process_batch, DBM.processedFlat, List.filter_append]

/-- Helper: a flush inside the worker loop (process the pending batch,
clear it, stamp the flush time) preserves the conservation invariant. -/
theorem DBM.flush_preserves {α : Type} (s : DBM.St α) (dur now : Nat)
    (tryOk failAuditOk : Bool) (h : DBM.ConsInv s) :
    DBM.ConsInv { DBM.process_batch s.batch_ops dur tryOk failAuditOk s with
                  batch_ops := [], last_batch_time := now } := by
  obtain ⟨hflat, herr⟩ := h
  obtain ⟨hpf, hperr, hpq, hpa, -, hpfail⟩ :=
    DBM.process_batch_inv s.batch_ops dur tryOk failAuditOk s
  constructor
  · show DBM.processedFlat (DBM.process_batch s.batch_ops dur tryOk failAuditOk s)
        ++ [] ++ (DBM.process_batch s.batch_ops dur tryOk failAuditOk s).operation_queue
        = (DBM.process_batch s.batch_ops dur tryOk failAuditOk s).accepted
    rw [hpf, hpq, hpa, ← hflat]
    simp [List.append_assoc]
  · show (DBM.process_batch s.batch_ops dur tryOk failAuditOk s).errors
        = ((DBM.process_batch s.batch_ops dur tryOk failAuditOk s).processed.filter
            (fun p => p.2 = false)).length
    rw [hperr, hpfail, herr]

/-- Helper: every event preserves the conservation invariant. -/
theorem DBM.step_preserves_ConsInv {α : Type} (cfg : DBM.Config)
    (s : DBM.St α) (e : DBM.Ev α) (h : DBM.ConsInv s) :
    DBM.ConsInv (DBM.step cfg s e) := by
  obtain ⟨hflat, herr⟩ := h
  cases e with
  | enq op =>
    show DBM.ConsInv (DBM.queue_operation cfg op s).2
    unfold DBM.queue_operation
    split
    · exact ⟨hflat, herr⟩
    · split
      · exact ⟨hflat, herr⟩
      · constructor
        · show DBM.processedFlat s ++ s.batch_ops
              ++ (s.operation_queue ++ [op]) = s.accepted ++ [op]
          rw [← hflat]
          simp [List.append_assoc]
        · exact herr
  | iter now dur tryOk failAuditOk =>
    show DBM.ConsInv (DBM.worker_iter cfg now dur tryOk failAuditOk s)
    unfold DBM.worker_iter
    cases hq : s.operation_queue with
    | nil =>
      simp only
      split
      · exact DBM.flush_preserves s dur now tryOk failAuditOk ⟨hflat, herr⟩
      · exact ⟨hflat, herr⟩
    | cons op rest =>
      simp only
      have h1 : DBM.ConsInv
          { s with operation_queue := rest,
                   batch_ops := s.batch_ops ++ [op],
                   operations_queued := s.operations_queued + 1 } := by
        constructor
        · show DBM.processedFlat s ++ (s.batch_ops ++ [op]) ++ rest = s.accepted
          rw [← hflat, hq]
          simp [List.append_assoc]
        · exact herr
      split
      · exact DBM.flush_preserves _ dur now tryOk failAuditOk h1
      · exact h1
  | stopEv =>
    show DBM.ConsInv (DBM.stop s)
    unfold DBM.stop
    split
    · exact ⟨hflat, herr⟩
    · exact ⟨hflat, herr⟩
  | final dur tryOk failAuditOk =>
    show DBM.ConsInv (DBM.worker_final dur tryOk failAuditOk s)
    unfold DBM.worker_final
    split
    · exact ⟨hflat, herr⟩
    · obtain ⟨hpf, hperr, hpq, hpa, -, hpfail⟩ :=
        DBM.process_batch_inv s.batch_ops dur tryOk failAuditOk s
      constructor
      · show DBM.processedFlat (DBM.process_batch s.batch_ops dur tryOk failAuditOk s)
            ++ [] ++ (DBM.process_batch s.batch_ops dur tryOk failAuditOk s).operation_queue
            = (DBM.process_batch s.batch_ops dur tryOk failAuditOk s).accepted
        rw [hpf, hpq, hpa, ← hflat]
        simp [List.append_assoc]
      · show (DBM.process_batch s.batch_ops dur tryOk failAuditOk s).errors
            = ((DBM.process_batch s.batch_ops dur tryOk failAuditOk s).processed.filter
                (fun p => p.2 = false)).length
        rw [hperr, hpfail, herr]

/-- Helper: the conservation invariant holds after any event sequence from
any state satisfying it. -/
theorem DBM.run_preserves_ConsInv {α : Type} (cfg : DBM.Config)
    (evs : List (DBM.Ev α)) :
    ∀ s : DBM.St α, DBM.ConsInv s → DBM.ConsInv (DBM.run cfg evs s) := by
  induction evs with
  | nil => exact fun s h => h
  | cons e rest ih =>
    intro s h
    exact ih _ (DBM.step_preserves_ConsInv cfg s e h)

/-- Claim C2 (amended): over every execution — every interleaving of
enqueues, worker iterations, stop and the final drain, with every oracle
of flush successes — each operation accepted by `queue_operation` sits in
exactly one place: handed to `_process_batch` in exactly one batch,
pending in the worker's in-memory batch, or still in the operation queue;
and the error counter equals the number of failed batches, so a dropped
batch is always counted. Operations still in the operation queue when
the worker exits stay there: they are neither committed nor audited nor
counted (see the counterexample for the claim as originally stated). -/
theorem c2_operation_conservation (α : Type) (cfg : DBM.Config)
    (evs : List (DBM.Ev α)) :
    DBM.ConsInv (DBM.run cfg evs (DBM.startState α)) :=
  DBM.run_preserves_ConsInv cfg evs (DBM.startState α) ⟨rfl, rfl⟩

/-- Claim C2 counterexample: operations 1 and 2 are both accepted by
`queue_operation` (the acceptance history ends as `[1, 2]`); `stop` is
called; the worker's in-flight `get` dequeues operation 1, the loop
condition is then observed false, and the post-loop drain flushes the
one-element batch `[1]`. The worker has exited: operation 2 was accepted
yet is still in the queue, was never handed to `_process_batch`, and no
error was counted — it is silently lost across shutdown, refuting the
claim that every accepted operation is committed or dropped with a count
increment. -/
theorem c2_counterexample :
    DBM.run ⟨10, 100⟩
        [DBM.Ev.enq 1, DBM.Ev.enq 2, DBM.Ev.stopEv,
         DBM.Ev.iter 1 0 true true, DBM.Ev.final 0 true true]
        (DBM.startState Nat)
      = { operation_queue := [2], is_running := false, batch_ops := [],
          last_batch_time := 0,
          buffer_audit := [⟨"batch_process", 1, 0, true⟩],
          operations_queued := 1, operations_completed := 1,
          batch_inserts := 1, errors := 0, queue_overflows := 0,
          accepted := [1, 2], processed := [([1], true)] } := by
  decide

/-- Claim C5: with queue capacity 2 and no draining, the first two
enqueues return `True` and stay queued, the third returns `False` and
bumps `queue_overflows` to exactly 1; and whenever the manager is not
running, `queue_operation` returns `False` and leaves the state — queue
included — untouched. -/
theorem c5_enqueue_backpressure (α : Type) (bs : Nat) (x y z : α) :
    (let cfg : DBM.Config := ⟨bs, 2⟩
     let r1 := DBM.queue_operation cfg x (DBM.startState α)
     let r2 := DBM.queue_operation cfg y r1.2
     let r3 := DBM.queue_operation cfg z r2.2
     r1.1 = true ∧ r2.1 = true ∧ r3.1 = false ∧
     r3.2.operation_queue = [x, y] ∧ r3.2.queue_overflows = 1) ∧
    ∀ (s : DBM.St α) (op : α), s.is_running = false →
      DBM.queue_operation ⟨bs, 2⟩ op s = (false, s) := by
  constructor
  · simp [DBM.queue_operation, DBM.startState, DBM.start, DBM.init]
  · intro s op h
    simp [DBM.queue_operation, h]

/-- Witness for claim C5's not-running clause at a concrete stopped state
(and hence for the whole theorem at concrete inputs). -/
theorem c5_witness :
    DBM.queue_operation ⟨10, 2⟩ (7 : Nat) (DBM.init Nat)
      = (false, DBM.init Nat) :=
  (c5_enqueue_backpressure Nat 10 1 2 3).2 (DBM.init Nat) 7 rfl

/-- Claim C6: with `batch_size = 3`, a running worker and three accepted
operations, the first two worker iterations flush nothing (no partial
batch of 1 or 2), and the third iteration — the wait having returned an
operation each time and fewer than 5 seconds having passed since worker
start — produces exactly one flush of all three operations:
`batch_inserts` becomes 1 and `operations_completed` becomes 3. -/
theorem c6_batch_size_flush (α : Type) (cap : Nat) (a b c : α)
    (t1 t2 t3 d1 d2 d3 : Nat) (s0 u1 u2 u3 : DBM.St α)
    (hcap : 3 ≤ cap) (h1 : t1 < 5) (h2 : t2 < 5) (h3 : t3 < 5)
    (hs0 : (DBM.queue_operation ⟨3, cap⟩ c (DBM.queue_operation ⟨3, cap⟩ b
        (DBM.queue_operation ⟨3, cap⟩ a (DBM.startState α)).2).2).2 = s0)
    (hu1 : DBM.worker_iter ⟨3, cap⟩ t1 d1 true true s0 = u1)
    (hu2 : DBM.worker_iter ⟨3, cap⟩ t2 d2 true true u1 = u2)
    (hu3 : DBM.worker_iter ⟨3, cap⟩ t3 d3 true true u2 = u3) :
    u1.processed = [] ∧ u2.processed = [] ∧
    u3.processed = [([a, b, c], true)] ∧
    u3.batch_inserts = 1 ∧ u3.operations_completed = 3 ∧
    u3.batch_ops = [] ∧ u3.operation_queue = [] := by
  have hc0 : ¬ cap = 0 := by omega
  have hc1 : ¬ cap ≤ 1 := by omega
  have hc2 : ¬ cap ≤ 2 := by omega
  have ht1 : ¬ (5 ≤ t1) := by omega
  have ht2 : ¬ (5 ≤ t2) := by omega
  have ht3 : ¬ (5 ≤ t3) := by omega
  have e0 : s0 = ⟨[a, b, c], true, [], 0, [], 0, 0, 0, 0, 0, [a, b, c], []⟩ := by
    rw [← hs0]
    simp [DBM.queue_operation, DBM.startState, DBM.start, DBM.init,
          hc0, hc1, hc2]
  have e1 : u1 = ⟨[b, c], true, [a], 0, [], 1, 0, 0, 0, 0, [a, b, c], []⟩ := by
    rw [← hu1, e0]
    simp [DBM.worker_iter, ht1]
  have e2 : u2 = ⟨[c], true, [a, b], 0, [], 2, 0, 0, 0, 0, [a, b, c], []⟩ := by
    rw [← hu2, e1]
    simp [DBM.worker_iter, ht2]
  have e3 : u3 = ⟨[], true, [], t3, [⟨"batch_process", 3, d3, true⟩],
      3, 3, 1, 0, 0, [a, b, c], [([a, b, c], true)]⟩ := by
    rw [← hu3, e2]
    simp [DBM.worker_iter, DBM.process_batch, ht3]
  rw [e1, e2, e3]
  simp

/-- Witness for claim C6 at concrete operations 1, 2, 3 with capacity 3
and all three waits returning within the first 5 seconds. -/
theorem c6_witness :
    ({ operation_queue := [2, 3], is_running := true, batch_ops := [1],
       last_batch_time := 0, buffer_audit := [], operations_queued := 1,
       operations_completed := 0, batch_inserts := 0, errors := 0,
       queue_overflows := 0, accepted := [1, 2, 3],
       processed := [] } : DBM.St Nat).processed = [] ∧
    ({ operation_queue := [3], is_running := true, batch_ops := [1, 2],
       last_batch_time := 0, buffer_audit := [], operations_queued := 2,
       operations_completed := 0, batch_inserts := 0, errors := 0,
       queue_overflows := 0, accepted := [1, 2, 3],
       processed := [] } : DBM.St Nat).processed = [] ∧
    ({ operation_queue := [], is_running := true, batch_ops := [],
       last_batch_time := 1, buffer_audit := [⟨"batch_process", 3, 0, true⟩],
       operations_queued := 3, operations_completed := 3, batch_inserts := 1,
       errors := 0, queue_overflows := 0, accepted := [1, 2, 3],
       processed := [([1, 2, 3], true)] } : DBM.St Nat).processed
        = [([1, 2, 3], true)] ∧
    ({ operation_queue := [], is_running := true, batch_ops := [],
       last_batch_time := 1, buffer_audit := [⟨"batch_process", 3, 0, true⟩],
       operations_queued := 3, operations_completed := 3, batch_inserts := 1,
       errors := 0, queue_overflows := 0, accepted := [1, 2, 3],
       processed := [([1, 2, 3], true)] } : DBM.St Nat).batch_inserts = 1 ∧
    ({ operation_queue := [], is_running := true, batch_ops := [],
       last_batch_time := 1, buffer_audit := [⟨"batch_process", 3, 0, true⟩],
       operations_queued := 3, operations_completed := 3, batch_inserts := 1,
       errors := 0, queue_overflows := 0, accepted := [1, 2, 3],
       processed := [([1, 2, 3], true)] } : DBM.St Nat).operations_completed = 3 ∧
    ({ operation_queue := [], is_running := true, batch_ops := [],
       last_batch_time := 1, buffer_audit := [⟨"batch_process", 3, 0, true⟩],
       operations_queued := 3, operations_completed := 3, batch_inserts := 1,
       errors := 0, queue_overflows := 0, accepted := [1, 2, 3],
       processed := [([1, 2, 3], true)] } : DBM.St Nat).batch_ops = [] ∧
    ({ operation_queue := [], is_running := true, batch_ops := [],
       last_batch_time := 1, buffer_audit := [⟨"batch_process", 3, 0, true⟩],
       operations_queued := 3, operations_completed := 3, batch_inserts := 1,
       errors := 0, queue_overflows := 0, accepted := [1, 2, 3],
       processed := [([1, 2, 3], true)] } : DBM.St Nat).operation_queue = [] :=
  c6_batch_size_flush Nat 3 1 2 3 1 1 1 0 0 0
    ⟨[1, 2, 3], true, [], 0, [], 0, 0, 0, 0, 0, [1, 2, 3], []⟩
    ⟨[2, 3], true, [1], 0, [], 1, 0, 0, 0, 0, [1, 2, 3], []⟩
    ⟨[3], true, [1, 2], 0, [], 2, 0, 0, 0, 0, [1, 2, 3], []⟩
    ⟨[], true, [], 1, [⟨"batch_process", 3, 0, true⟩], 3, 3, 1, 0, 0,
      [1, 2, 3], [([1, 2, 3], true)]⟩
    (by decide) (by decide) (by decide) (by decide)
    (by decide) (by decide) (by decide) (by decide)

/-- Claim C7 counterexample: a failed flush of the one-element batch `[1]`
whose failure-audit insert — executed under `except: pass` — also fails
appends no `buffer_audit` row at all, although the error counter still
moves; so not every flush attempt appends exactly one audit record. -/
theorem c7_counterexample :
    (DBM.process_batch [1] 0 false false (DBM.startState Nat)).buffer_audit = []
      ∧ (DBM.process_batch [1] 0 false false (DBM.startState Nat)).errors = 1 := by
  decide

/-- Claim C7 (amended): a successful flush always appends exactly one
audit row recording the operation type, item count, duration and success;
a failed flush appends exactly one failure row provided the failure-audit
insert itself succeeds; when that insert also fails, no row is appended
and the failure is visible only through the error counter. -/
theorem c7_audit_per_flush (α : Type) (ops : List α) (dur : Nat) (fa : Bool)
    (s : DBM.St α) :
    (DBM.process_batch ops dur true fa s).buffer_audit
        = s.buffer_audit ++ [⟨"batch_process", ops.length, dur, true⟩] ∧
    (DBM.process_batch ops dur false true s).buffer_audit
        = s.buffer_audit ++ [⟨"batch_process", ops.length, dur, false⟩] ∧
    (DBM.process_batch ops dur false false s).buffer_audit = s.buffer_audit ∧
    (DBM.process_batch ops dur false false s).errors = s.errors + 1 := by
  simp [DBM.process_batch]

/-- Claim C8: a gas reading whose `status` is `"ALARM"` makes
`_handle_sensor_data` submit exactly one critical-level `system_alert`;
and a pulse reading whose `spo2` is present and below 90 likewise submits
exactly one critical-level `system_alert`, whatever the heart-rate value
(an out-of-band heart rate adds only a warning-level alert). -/
theorem c8_critical_thresholds (dev raw : String) (d : Integration.SensorData) :
    (d.status = some "ALARM" →
      ((Integration.handle_sensor_data dev "gas" (some d) raw).filter
          Integration.is_critical_alert).length = 1) ∧
    (∀ sp : Rat, d.spo2 = some sp → sp < 90 →
      ((Integration.handle_sensor_data dev "pulse" (some d) raw).filter
          Integration.is_critical_alert).length = 1) := by
  constructor
  · intro h
    simp [Integration.handle_sensor_data, Integration.check_critical_conditions,
          h, Integration.is_critical_alert]
  · intro sp hsp h
    by_cases hhr : (d.heart_rate.getD 0 < (50 : Rat) ∨
        (150 : Rat) < d.heart_rate.getD 0)
    · simp [Integration.handle_sensor_data, Integration.check_critical_conditions,
            hsp, h, hhr, Integration.is_critical_alert]
    · simp [Integration.handle_sensor_data, Integration.check_critical_conditions,
            hsp, h, hhr, Integration.is_critical_alert]

/-- Witness for claim C8 on the concrete alarm-status gas payload and the
concrete pulse payload with `spo2 = 85`. -/
theorem c8_witness :
    ((Integration.handle_sensor_data "d1" "gas" (some Integration.gasAlarmData)
        "").filter Integration.is_critical_alert).length = 1 ∧
    ((Integration.handle_sensor_data "d1" "pulse" (some Integration.lowSpo2Data)
        "").filter Integration.is_critical_alert).length = 1 :=
  ⟨(c8_critical_thresholds "d1" "" Integration.gasAlarmData).1 rfl,
   (c8_critical_thresholds "d1" "" Integration.lowSpo2Data).2 85 rfl
     (by norm_num)⟩

/-- Claim C9: `wait_for_queue_empty` and `wait_for_processing` return
`False` for every queue state and every timeout argument — the
`queue.Queue.join(timeout=...)` call raises `TypeError` (the stdlib
method takes no such parameter), which the surrounding `except` converts
to `False`; neither method can ever report that the queue emptied. -/
theorem c9_wait_always_false (α : Type) :
    (∀ (s : DBM.St α) (timeout : Option Rat),
        DBM.wait_for_queue_empty s timeout = false) ∧
    (∀ (r : Receiver.RecvState α) (timeout : Option Rat),
        Receiver.wait_for_processing r timeout = false) :=
  ⟨fun _ _ => rfl, fun _ _ => rfl⟩

/-- Helper: looking up a key that the filter did not target is unaffected
by filtering out another key's rows. -/
theorem Devices.find?_filter_ne (t : List Devices.DeviceRow) (id excl : String)
    (h : id ≠ excl) :
    ((t.filter (fun r => r.device_id != excl)).find?
        (fun r => r.device_id == id))
      = t.find? (fun r => r.device_id == id) := by
  induction t with
  | nil => rfl
  | cons a rest ih =>
    by_cases ha : a.device_id = excl
    · have hne : (excl == id) = false := by
        simp
        exact fun hh => h hh.symm
      simp [List.filter_cons, List.find?_cons, ha, hne, ih]
    · simp [List.filter_cons, List.find?_cons, ha, ih]

/-- Helper: after filtering out every row of a key, a lookup of that key
finds nothing. -/
theorem Devices.find?_filter_self (t : List Devices.DeviceRow) (excl : String) :
    ((t.filter (fun r => r.device_id != excl)).find?
        (fun r => r.device_id == excl)) = none := by
  rw [List.find?_eq_none]
  intro x hx
  have hpx := List.of_mem_filter hx
  simp [bne_iff_ne] at hpx
  simp [hpx]

/-- Claim C10: applying an `update_device` operation for a device already
present replaces the whole row: `total_messages` becomes the previous
value plus one, but `first_seen` is reset to the statement's current
default timestamp and `firmware_version` / `last_battery_level` take the
operation's values (`NULL` when absent) — the stored history of those
columns is not preserved. All other devices' rows are looked up
unchanged. -/
theorem c10_update_device_replaces_row
    (t : List Devices.DeviceRow) (d : Devices.UpdateDeviceData) (now : Nat)
    (r : Devices.DeviceRow)
    (hfound : Devices.lookupDevice t d.device_id = some r) :
    Devices.lookupDevice (Devices.batch_update_device now t d) d.device_id
        = some { device_id := d.device_id, first_seen := now,
                 last_seen := d.timestamp.getD now,
                 status := d.status.getD "online",
                 firmware_version := d.firmware_version,
                 last_battery_level := d.battery_level,
                 total_messages := r.total_messages + 1 } ∧
    ∀ id', id' ≠ d.device_id →
      Devices.lookupDevice (Devices.batch_update_device now t d) id'
          = Devices.lookupDevice t id' := by
  constructor
  · simp only [Devices.batch_update_device, Devices.lookupDevice]
    rw [List.find?_append]
    have h1 := Devices.find?_filter_self t d.device_id
    rw [h1]
    simp only [Devices.lookupDevice] at hfound
    simp [hfound, List.find?_cons]
  · intro id' hne
    simp only [Devices.batch_update_device, Devices.lookupDevice]
    rw [List.find?_append, Devices.find?_filter_ne t id' d.device_id hne]
    cases hft : t.find? (fun r => r.device_id == id') with
    | some v => simp
    | none =>
      have hrow : (d.device_id == id') = false := by
        simp
        exact fun hh => hne hh.symm
      simp [List.find?_cons, hrow]

/-- Witness for claim C10: device `d1` had `first_seen = 5`, firmware
`fw-1.0`, battery 80 and 7 messages; one update with no firmware or
battery leaves the row with `first_seen = 42` (the new statement time),
no firmware, no battery, and 8 messages. -/
theorem c10_witness :
    Devices.lookupDevice
        (Devices.batch_update_device 42 Devices.exampleTable
          Devices.exampleUpdate) "d1"
      = some { device_id := "d1", first_seen := 42, last_seen := 9,
               status := "online", firmware_version := none,
               last_battery_level := none, total_messages := 8 } ∧
    ∀ id', id' ≠ "d1" →
      Devices.lookupDevice
          (Devices.batch_update_device 42 Devices.exampleTable
            Devices.exampleUpdate) id'
        = Devices.lookupDevice Devices.exampleTable id' :=
  c10_update_device_replaces_row Devices.exampleTable Devices.exampleUpdate 42
    { device_id := "d1", first_seen := 5, last_seen := 5, status := "offline",
      firmware_version := some "fw-1.0", last_battery_level := some 80,
      total_messages := 7 } (by decide)
